import Mathlib

/-!
Verification of the Pixie-16 SDK crate runtime against its specification.

The definitions below are a shallow embedding of the C++ sources:
  * `sdk/src/pixie_buffer.cpp`          — buffer pool and event queue
  * `sdk/src/pixie/pixie16/backplane.cpp` — backplane roles and sync-wait
  * `sdk/src/pixie_error.cpp`           — error codes and the result table
  * `sdk/src/pixie_crate.cpp`           — legacy crate constructor/initialize
  * `test_api.cpp`                      — the list-mode save worker

32-bit hardware words are modelled as `Nat`; `size_t` counters are `Nat`
(in every state evaluated here the C++ unsigned subtractions do not wrap,
so truncated `Nat` subtraction coincides with the source's arithmetic);
`int` values (backplane leaders, sync-wait counter) are `Int`; C++ code
that throws is modelled with `Except`.
-/

namespace PixieSDK

/-- Decidable equality for `Except` results, so concrete evaluations can
be settled by `decide`. -/
instance {ε α : Type} [DecidableEq ε] [DecidableEq α] :
    DecidableEq (Except ε α)
  | .ok a, .ok b =>
    if h : a = b then .isTrue (by rw [h])
    else .isFalse (fun hh => h (Except.ok.inj hh))
  | .ok _, .error _ => .isFalse (fun hh => Except.noConfusion hh)
  | .error _, .ok _ => .isFalse (fun hh => Except.noConfusion hh)
  | .error a, .error b =>
    if h : a = b then .isTrue (by rw [h])
    else .isFalse (fun hh => h (Except.error.inj hh))

/-! ## Error codes (`error.hpp`, `enum struct code`)

The closed enumeration of SDK error codes, in source declaration order.
`last` is the terminator enumerator. -/

inductive Code where
  | success
  | crate_already_open
  | crate_not_ready
  | crate_invalid_param
  | module_number_invalid
  | module_total_invalid
  | module_already_open
  | module_close_failure
  | module_offline
  | module_info_failure
  | module_invalid_operation
  | module_invalid_firmware
  | module_initialize_failure
  | module_invalid_param
  | module_invalid_var
  | module_param_disabled
  | module_param_readonly
  | module_param_writeonly
  | module_task_timeout
  | module_invalid_slot
  | module_not_found
  | module_test_invalid
  | channel_number_invalid
  | channel_invalid_param
  | channel_invalid_var
  | channel_invalid_index
  | channel_param_disabled
  | channel_param_readonly
  | channel_param_writeonly
  | device_load_failure
  | device_boot_failure
  | device_initialize_failure
  | device_copy_failure
  | device_image_failure
  | device_hw_failure
  | device_dma_failure
  | device_dma_busy
  | device_fifo_failure
  | device_eeprom_failure
  | device_eeprom_bad_type
  | device_eeprom_not_found
  | config_invalid_param
  | config_param_not_found
  | config_json_error
  | file_not_found
  | file_open_failure
  | file_read_failure
  | file_size_invalid
  | file_create_failure
  | no_memory
  | slot_map_invalid
  | invalid_value
  | not_supported
  | buffer_pool_empty
  | buffer_pool_not_empty
  | buffer_pool_busy
  | buffer_pool_not_enough
  | unknown_error
  | internal_failure
  | bad_allocation
  | bad_error_code
  | last
deriving DecidableEq, Repr

/-- The enumerators in their source declaration order (`success = 0`, the
comment in the source forbids numbering any other entry, so each later
enumerator's integer value is its position in this list). -/
def enum_order : List Code :=
  [.success,
   .crate_already_open, .crate_not_ready, .crate_invalid_param,
   .module_number_invalid, .module_total_invalid, .module_already_open,
   .module_close_failure, .module_offline, .module_info_failure,
   .module_invalid_operation, .module_invalid_firmware,
   .module_initialize_failure, .module_invalid_param, .module_invalid_var,
   .module_param_disabled, .module_param_readonly, .module_param_writeonly,
   .module_task_timeout, .module_invalid_slot, .module_not_found,
   .module_test_invalid,
   .channel_number_invalid, .channel_invalid_param, .channel_invalid_var,
   .channel_invalid_index, .channel_param_disabled, .channel_param_readonly,
   .channel_param_writeonly,
   .device_load_failure, .device_boot_failure, .device_initialize_failure,
   .device_copy_failure, .device_image_failure, .device_hw_failure,
   .device_dma_failure, .device_dma_busy, .device_fifo_failure,
   .device_eeprom_failure, .device_eeprom_bad_type, .device_eeprom_not_found,
   .config_invalid_param, .config_param_not_found, .config_json_error,
   .file_not_found, .file_open_failure, .file_read_failure,
   .file_size_invalid, .file_create_failure,
   .no_memory, .slot_map_invalid, .invalid_value, .not_supported,
   .buffer_pool_empty, .buffer_pool_not_empty, .buffer_pool_busy,
   .buffer_pool_not_enough,
   .unknown_error, .internal_failure, .bad_allocation, .bad_error_code,
   .last]

/-- `size_t(code::last)`: the integer value of the `last` enumerator, i.e.
its position in the declaration order. -/
def size_t_last : Nat := List.indexOf Code.last enum_order

/-! ## Buffers (`std::vector<buffer_value>` with `buffer_value = uint32_t`)

A buffer is a vector of 32-bit words: `data` is the logical contents
(`size()` = `data.length`) and `cap` the reserved `capacity()`. -/

structure Buffer where
  cap : Nat
  data : List Nat
deriving DecidableEq, Repr

def Buffer.size (b : Buffer) : Nat := b.data.length

/-- `buffer::clear()` empties the logical contents (capacity retained). -/
def Buffer.clear (b : Buffer) : Buffer := { b with data := [] }

/-- Spare room in a buffer: `capacity() - size()` (`size_t` arithmetic; for
a C++ vector `size() ≤ capacity()` so truncated subtraction is exact). -/
def Buffer.spare (b : Buffer) : Nat := b.cap - b.data.length

/-! ## Buffer pool (`pixie_buffer.cpp`, `struct pool`)

State: the free list `buffers` (front of list = front of the
`std::deque`), the configured `number` and per-buffer `size`, and the
atomic available counter `count_`. -/

structure Pool where
  number : Nat
  size : Nat
  buffers : List Buffer
  count_ : Nat
deriving DecidableEq, Repr

def Pool.init : Pool := { number := 0, size := 0, buffers := [], count_ := 0 }

/-- `pool::create(number_, size_)`: throws `buffer_pool_not_empty` when the
pool is already created, otherwise reserves `number_` empty buffers of
capacity `size_` on the free list and sets `count_`. -/
def Pool.create (p : Pool) (number_ size_ : Nat) : Except Code Pool :=
  if p.number ≠ 0 then
    .error .buffer_pool_not_empty
  else
    .ok { number := number_, size := size_,
          buffers := List.replicate number_ { cap := size_, data := [] },
          count_ := number_ }

/-- Modelled from the spec: `pool::empty()` (the header is not under the
sources given) — true when no buffers are available, which under the
pool's lock is `count_ == 0` and equally `buffers.empty()` (the two are
updated together in `create`, `request` and `release`). -/
def Pool.isEmpty (p : Pool) : Bool := p.count_ = 0

/-- `pool::request()`: throws `buffer_pool_empty` when the free list is
exhausted; otherwise decrements `count_` and pops the front buffer,
returning it as the handle. -/
def Pool.request (p : Pool) : Except Code (Buffer × Pool) :=
  if p.isEmpty then
    .error .buffer_pool_empty
  else
    match p.buffers with
    | [] => .error .buffer_pool_empty
    | buf :: rest => .ok (buf, { p with buffers := rest, count_ := p.count_ - 1 })

/-- `pool::release(buf)`: clears the buffer's contents and pushes it back
on the front of the free list, incrementing `count_`. -/
def Pool.release (p : Pool) (buf : Buffer) : Pool :=
  { p with buffers := buf.clear :: p.buffers, count_ := p.count_ + 1 }

/-- Perform `k` consecutive `request()` calls, collecting the handles. -/
def Pool.requests (p : Pool) : Nat → Except Code (List Buffer × Pool)
  | 0 => .ok ([], p)
  | k + 1 =>
    match p.request with
    | .error e => .error e
    | .ok (buf, p') =>
      match p'.requests k with
      | .error e => .error e
      | .ok (bufs, p'') => .ok (buf :: bufs, p'')

/-! ## Event queue (`pixie_buffer.cpp`, `struct queue`)

State: the deque of handles (front of list = front of deque) and the two
atomic counters `size_` (total words) and `count_` (handle count). -/

structure Queue where
  buffers : List Buffer
  size_ : Nat
  count_ : Nat
deriving DecidableEq, Repr

def Queue.init : Queue := { buffers := [], size_ := 0, count_ := 0 }

/-- Modelled from the spec: `queue::size()` (the header is not under the
sources given) — returns the atomic word counter `size_`, the value
`copy_unprotected` checks and `queue::output` prints. -/
def Queue.size (q : Queue) : Nat := q.size_

/-- Modelled from the spec: `queue::count()` (the header is not under the
sources given) — returns the atomic handle counter `count_`. -/
def Queue.count (q : Queue) : Nat := q.count_

/-- The words actually held by the queue's handles (for stating the
size-sum invariant). -/
def Queue.data_words (q : Queue) : Nat := (q.buffers.map Buffer.size).sum

/-- `queue::push(buf)`: appends the handle and updates the counters; a
buffer with no data is ignored. -/
def Queue.push (q : Queue) (buf : Buffer) : Queue :=
  if buf.size > 0 then
    { buffers := q.buffers ++ [buf],
      size_ := q.size_ + buf.size,
      count_ := q.count_ + 1 }
  else q

/-- `queue::pop()`: removes and returns the front handle, updating the
counters (`none` models the undefined front-of-empty-deque case). -/
def Queue.pop (q : Queue) : Option (Buffer × Queue) :=
  match q.buffers with
  | [] => none
  | buf :: rest =>
    some (buf, { buffers := rest,
                 size_ := q.size_ - buf.size,
                 count_ := q.count_ - 1 })

/-- `sizeof(*to)` with `buffer_value_ptr to`: a 32-bit word is 4 bytes. -/
def bytes_per_word : Nat := 4

/-- Destination of a bulk copy. The full-buffer branch of the source
copies `from->size() * sizeof(*to)` bytes — whole words — while the
partial branch copies `to_move` bytes, i.e. `to_move / 4` whole words
followed by `to_move % 4` bytes of the next word; `words` collects the
whole words written and `stray_bytes` those trailing bytes. -/
structure CopyOut where
  words : List Nat
  stray_bytes : Nat
deriving DecidableEq, Repr

/-- The loop of `queue::copy_unprotected` (pixie_buffer.cpp:213-236).
Arguments track `to` (words written so far), `to_move`, `size_`, `count_`
and the deque from `from_bi` on; visited buffers are erased at the end of
the source loop (`buffers.erase(buffers.begin(), from_bi)`), so the
returned list holds exactly the unvisited suffix.  The source's partial
branch (pixie_buffer.cpp:224-231): `memcpy` of `to_move` *bytes*; the
leftover words are moved to the buffer's front and it is resized, but
`from_bi++` still runs so this buffer is erased as well; `size_ -=
to_move` executes after `to_move = 0` and so subtracts nothing. -/
def copy_loop (dest : List Nat) (to_move sz cnt : Nat) :
    List Buffer → List Nat × Nat × List Buffer × Nat × Nat
  | [] => (dest, 0, [], sz, cnt)
  | from_ :: rest =>
    if to_move = 0 then (dest, 0, from_ :: rest, sz, cnt)
    else if from_.size ≤ to_move then
      copy_loop (dest ++ from_.data) (to_move - from_.size)
        (sz - from_.size) (cnt - 1) rest
    else
      (dest ++ from_.data.take (to_move / bytes_per_word),
       to_move % bytes_per_word, rest, sz, cnt)

/-- `queue::copy_unprotected(to, count)`: fails `buffer_pool_not_enough`
when `count` exceeds `size_`, otherwise runs the drain loop. -/
def Queue.copy_unprotected (q : Queue) (count : Nat) :
    Except Code (CopyOut × Queue) :=
  if count > q.size_ then
    .error .buffer_pool_not_enough
  else
    let (dest, stray, bufs, sz, cnt) := copy_loop [] count q.size_ q.count_ q.buffers
    .ok ({ words := dest, stray_bytes := stray },
         { buffers := bufs, size_ := sz, count_ := cnt })

/-- `queue::copy(to, count)`: takes the lock and calls
`copy_unprotected`. -/
def Queue.copy (q : Queue) (count : Nat) : Except Code (CopyOut × Queue) :=
  q.copy_unprotected count

/-- `queue::flush()`: clears the deque of handles.  The source resets
neither `size_` nor `count_`. -/
def Queue.flush (q : Queue) : Queue := { q with buffers := [] }

/-- The inner merge loop of `queue::compact` (pixie_buffer.cpp:260-278)
at one target buffer `to` with `to_move` spare words, walking the
successor buffers.  Returns the grown target, the successors that remain
after the erase of the fully-merged ones, and how many buffers were fully
merged (each of which also decrements `count_`).  A partial merge moves
`to_move` words off the source's front and ends the loop. -/
def inner_merge (to_move : Nat) (tob : Buffer) :
    List Buffer → Buffer × List Buffer × Nat
  | [] => (tob, [], 0)
  | from_ :: rest =>
    if to_move = 0 then (tob, from_ :: rest, 0)
    else if from_.size ≤ to_move then
      let (to', rest', k) :=
        inner_merge (to_move - from_.size)
          { tob with data := tob.data ++ from_.data } rest
      (to', rest', k + 1)
    else
      ({ tob with data := tob.data ++ from_.data.take to_move },
       { from_ with data := from_.data.drop to_move } :: rest, 0)

/-- One pass of `queue::compact`'s outer loop over the deque, fuelled so
the recursion is structural (an inner merge that erased no buffer leaves
the successor list the same length, so fuel `= list length` always
suffices; `outer_pass` below applies exactly that fuel).  Returns the
updated deque, the total `count_` decrement, and the `rerun` flag: when
an inner merge erased at least one buffer the source breaks out of the
pass and reruns it from the start. -/
def outer_loop : Nat → List Buffer → List Buffer × Nat × Bool
  | _, [] => ([], 0, false)
  | 0, l => (l, 0, false)
  | fuel + 1, tob :: rest =>
    if tob.spare > 0 then
      let r := inner_merge tob.spare tob rest
      if r.2.2 > 0 then (r.1 :: r.2.1, r.2.2, true)
      else
        let s := outer_loop fuel r.2.1
        (r.1 :: s.1, s.2.1, s.2.2)
    else
      let s := outer_loop fuel rest
      (tob :: s.1, s.2.1, s.2.2)

/-- One pass of `queue::compact`'s outer loop over the deque. -/
def outer_pass (l : List Buffer) : List Buffer × Nat × Bool :=
  outer_loop l.length l

/-- The `while (rerun)` loop of `queue::compact`, fuelled: each rerun
erased at least one buffer, so `buffers.length + 1` passes always
suffice (proved below). -/
def compact_passes : Nat → List Buffer → Nat → List Buffer × Nat
  | 0, l, c => (l, c)
  | fuel + 1, l, c =>
    let (l', k, rr) := outer_pass l
    if rr then compact_passes fuel l' (c - k) else (l', c - k)

/-- `queue::compact()`: coalesces tail data into earlier partially-full
buffers; `size_` is never touched. -/
def Queue.compact (q : Queue) : Queue :=
  let r := compact_passes (q.buffers.length + 1) q.buffers q.count_
  { q with buffers := r.1, count_ := r.2 }

/-- The shape `compact` drives the deque into: every buffer except
possibly the final one is full to capacity. -/
def full_except_last : List Buffer → Prop
  | [] => True
  | [_] => True
  | b :: rest => b.spare = 0 ∧ full_except_last rest

/-! ## Backplane roles and sync-wait (`backplane.cpp`)

`role::leader` is an `std::atomic_int`; the sentinel `released` is `-1`.
Requests and releases are strong compare-exchanges; contention is a
fail-return. -/

def released : Int := -1

structure Role where
  leader : Int
deriving DecidableEq, Repr

/-- `role::role(label)`: the leader starts released. -/
def Role.init : Role := { leader := released }

/-- `role::request(mod)` (backplane.cpp:33-42): CAS the leader from
`released` to `mod.number`; returns whether the exchange took place
together with the resulting role state. -/
def Role.request (r : Role) (modNumber : Int) : Bool × Role :=
  if r.leader = released then (true, { leader := modNumber }) else (false, r)

/-- `role::release(mod)` (backplane.cpp:44-53): CAS the leader from
`mod.number` back to `released`. -/
def Role.release (r : Role) (modNumber : Int) : Bool × Role :=
  if r.leader = modNumber then (true, { leader := released }) else (false, r)

/-- Backplane sync-wait state: the counter `sync_waits`
(`std::atomic_int`) and the per-slot flag vector `sync_waiters` (sized to
the maximum slot count of a crate). -/
structure Backplane where
  sync_waits : Int
  sync_waiters : List Bool
deriving DecidableEq, Repr

/-- `backplane::backplane()` zero-initialises: no waits, all flags
false; `num_slots` is the size of the `sync_waiters` array fixed by the
header. -/
def Backplane.init (num_slots : Nat) : Backplane :=
  { sync_waits := 0, sync_waiters := List.replicate num_slots false }

/-- `backplane::sync_wait(mod, synch_wait)` (backplane.cpp:71-93): when
the request changes the module's flag, step the counter, store the flag
and range-check the counter (`sw < 0 || sw > sync_waiters.size()` throws
`internal_failure`); otherwise do nothing.  `sync_waiters[mod.number]`
requires `modNumber` in bounds (`getD` only for totality); the source
mutates before throwing, the `Except` model keeps just the error. -/
def Backplane.sync_wait (bp : Backplane) (modNumber : Nat) (synch_wait : Nat) :
    Except Code Backplane :=
  let synch_wait_active : Bool := synch_wait == 1
  if synch_wait_active = bp.sync_waiters.getD modNumber false then
    .ok bp
  else
    let waits' := if synch_wait_active then bp.sync_waits + 1 else bp.sync_waits - 1
    let waiters' := bp.sync_waiters.set modNumber synch_wait_active
    if waits' < 0 ∨ waits' > (waiters'.length : Int) then
      .error .internal_failure
    else
      .ok { sync_waits := waits', sync_waiters := waiters' }

/-- `backplane::sync_wait_valid()` (backplane.cpp:95-101): throws
`module_invalid_operation` with the quoted message unless the count is 0
or equals `sync_waiters.size()`. -/
def Backplane.sync_wait_valid (bp : Backplane) : Except (Code × String) Unit :=
  if bp.sync_waits ≠ 0 ∧ bp.sync_waits ≠ (bp.sync_waiters.length : Int) then
    .error (.module_invalid_operation,
      "sync wait mode enabled and not all modules in the sync wait state")
  else
    .ok ()

/-- The documented invariant on the sync-wait state: the counter equals
the number of set flags. -/
def Backplane.inv (bp : Backplane) : Prop :=
  bp.sync_waits = (bp.sync_waiters.count true : Int)

/-- A sequence of `sync_wait` calls, each a `(module number, value)`
pair. -/
def Backplane.sync_wait_seq (bp : Backplane) :
    List (Nat × Nat) → Except Code Backplane
  | [] => .ok bp
  | (m, v) :: rest => do
    let bp' ← bp.sync_wait m v
    bp'.sync_wait_seq rest

/-- The message `sync_wait_valid` throws with. -/
def sync_wait_msg : String :=
  "sync wait mode enabled and not all modules in the sync wait state"

/-- The S6 scenario's backplane: a 14-slot crate after module 0 wrote
`SYNCH_WAIT = 1` and module 1 wrote nothing. -/
def s6_backplane : Backplane :=
  { sync_waits := 1, sync_waiters := true :: List.replicate 13 false }

/-! ## Result codes (`pixie_error.cpp`) -/

structure ResultCode where
  result : Int
  text : String
deriving DecidableEq, Repr

/-- The `result_codes` table (pixie_error.cpp:71-156), entry for entry.
Note it has no entry for `module_test_invalid` nor for
`bad_allocation`. -/
def result_codes : List (Code × ResultCode) :=
  [(.success, ⟨0, "success"⟩),
   (.crate_already_open, ⟨100, "crate already open"⟩),
   (.crate_not_ready, ⟨101, "crate not ready"⟩),
   (.crate_invalid_param, ⟨102, "invalid system parameter"⟩),
   (.module_number_invalid, ⟨200, "invalid module number"⟩),
   (.module_total_invalid, ⟨201, "invalid module count"⟩),
   (.module_already_open, ⟨202, "module already open"⟩),
   (.module_close_failure, ⟨203, "module failed to close"⟩),
   (.module_offline, ⟨204, "module offline"⟩),
   (.module_info_failure, ⟨205, "module information failure"⟩),
   (.module_invalid_operation, ⟨206, "invalid module operation"⟩),
   (.module_invalid_firmware, ⟨207, "invalid module firmware"⟩),
   (.module_initialize_failure, ⟨208, "module initialization failure"⟩),
   (.module_invalid_param, ⟨209, "invalid module parameter"⟩),
   (.module_invalid_var, ⟨210, "invalid module variable"⟩),
   (.module_param_disabled, ⟨211, "module parameter disabled"⟩),
   (.module_param_readonly, ⟨212, "module parameter is readonly"⟩),
   (.module_param_writeonly, ⟨213, "module parameter is writeonly"⟩),
   (.module_task_timeout, ⟨214, "module task timeout"⟩),
   (.module_invalid_slot, ⟨215, "invalid module slot number"⟩),
   (.module_not_found, ⟨216, "module not found"⟩),
   (.channel_number_invalid, ⟨300, "invalid channel number"⟩),
   (.channel_invalid_param, ⟨301, "invalid channel parameter"⟩),
   (.channel_invalid_var, ⟨302, "invalid channel variable"⟩),
   (.channel_invalid_index, ⟨303, "invalid channel variable"⟩),
   (.channel_param_disabled, ⟨304, "invalid channel index"⟩),
   (.channel_param_readonly, ⟨305, "channel parameter is readonly"⟩),
   (.channel_param_writeonly, ⟨306, "channel parameter is writeonly"⟩),
   (.device_load_failure, ⟨500, "device failed to load"⟩),
   (.device_boot_failure, ⟨501, "device failed to boot"⟩),
   (.device_initialize_failure, ⟨502, "device failed to initialize"⟩),
   (.device_copy_failure, ⟨503, "device variable copy failed"⟩),
   (.device_image_failure, ⟨504, "device image failure"⟩),
   (.device_hw_failure, ⟨505, "device hardware failure"⟩),
   (.device_dma_failure, ⟨506, "device dma failure"⟩),
   (.device_dma_busy, ⟨507, "device dma busy"⟩),
   (.device_fifo_failure, ⟨508, "device fifo failure"⟩),
   (.device_eeprom_failure, ⟨509, "device eeprom failure"⟩),
   (.device_eeprom_bad_type, ⟨510, "device eeprom bad type"⟩),
   (.device_eeprom_not_found, ⟨511, "device eeprom tag not found"⟩),
   (.config_invalid_param, ⟨600, "invalid config parameter"⟩),
   (.config_param_not_found, ⟨601, "config parameter not found"⟩),
   (.config_json_error, ⟨602, "config json error"⟩),
   (.file_not_found, ⟨700, "file not found"⟩),
   (.file_open_failure, ⟨701, "file open failure"⟩),
   (.file_read_failure, ⟨702, "file read failure"⟩),
   (.file_size_invalid, ⟨703, "invalid file size"⟩),
   (.file_create_failure, ⟨704, "file create failure"⟩),
   (.no_memory, ⟨800, "no memory"⟩),
   (.slot_map_invalid, ⟨801, "invalid slot map"⟩),
   (.invalid_value, ⟨802, "invalid number"⟩),
   (.not_supported, ⟨803, "not supported"⟩),
   (.buffer_pool_empty, ⟨804, "buffer pool empty"⟩),
   (.buffer_pool_not_empty, ⟨805, "buffer pool not empty"⟩),
   (.buffer_pool_busy, ⟨806, "buffer pool bust"⟩),
   (.buffer_pool_not_enough, ⟨807, "buffer pool not enough"⟩),
   (.unknown_error, ⟨900, "unknown error"⟩),
   (.internal_failure, ⟨901, "internal failure"⟩),
   (.bad_error_code, ⟨990, "bad error code"⟩)]

/-- `result_codes.find(type)` on the `std::map`: lookup by key. -/
def result_codes_find (c : Code) : Option ResultCode :=
  (result_codes.find? (fun e => e.1 = c)).map (·.2)

/-- `check_code_match()` (pixie_error.cpp:158-160): the table size must
equal `size_t(code::last)`. -/
def check_code_match : Bool :=
  result_codes.length = size_t_last

/-- `api_result(type)` (pixie_error.cpp:211-222): the table entry's
result, or the `bad_error_code` entry's result when absent (the source's
`map::at(bad_error_code)` is total since that entry exists; `getD 0` only
for totality). -/
def api_result (c : Code) : Int :=
  match result_codes_find c with
  | some rc => rc.result
  | none => ((result_codes_find .bad_error_code).map (·.result)).getD 0

/-- `api_result_text(type)` (pixie_error.cpp:224-235). -/
def api_result_text (c : Code) : String :=
  match result_codes_find c with
  | some rc => rc.text
  | none => ((result_codes_find .bad_error_code).map (·.text)).getD ""

/-! ## List-mode save worker exit path (`test_api.cpp`,
`list_save_worker::worker`, and the `module_threads` error capture) -/

/-- The module run statistics the worker's exit path reads; `fifo_in` and
`fifo_out` model the source fields `run_stats.in` and `run_stats.out`. -/
structure RunStats where
  hw_overflows : Nat
  overflows : Nat
  fifo_in : Nat
  fifo_out : Nat
deriving DecidableEq, Repr

/-- What a worker body can throw: a plain `std::runtime_error` or an
`xia::pixie::error::error` carrying a code. -/
inductive WorkerErr where
  | runtimeError (msg : String)
  | pixieError (c : Code) (msg : String)
deriving DecidableEq, Repr

/-- The exit path of `list_save_worker::worker` (test_api.cpp:1177-1199):
after the deadline, a run-task worker ends the run, drains any residual
words into the output (advancing `total` only when the read returned
words), and then checks the run statistics, throwing a
`std::runtime_error` with the quoted message at the first failed check;
a non-run-task worker just returns.  Returns the final `total`. -/
def list_save_worker_finish (run_task : Bool) (residual : List Nat)
    (stats : RunStats) (total : Nat) : Except WorkerErr Nat :=
  if run_task then
    let total' := if residual.length > 0 then total + residual.length else total
    if stats.hw_overflows ≠ 0 then
      .error (.runtimeError "list mode: EXT FIFO overflow (check workflow config)")
    else if stats.overflows ≠ 0 then
      .error (.runtimeError "list mode: data FIFO overflow (check buffer sizes)")
    else if stats.fifo_in ≠ stats.fifo_out then
      .error (.runtimeError "list mode: data left in data FIFO")
    else
      .ok total'
  else
    .ok total

/-- What the supervising `module_threads` records for a finished worker
(test_api.cpp:693-707): a pixie error's code goes into the promise; any
other exception is stored as the exception itself. -/
inductive Captured where
  | code (c : Code)
  | exception (msg : String)
deriving DecidableEq, Repr

def module_threads_capture (r : Except WorkerErr Nat) : Captured :=
  match r with
  | .ok _ => .code .success
  | .error (.pixieError c _) => .code c
  | .error (.runtimeError msg) => .exception msg

/-! ## Legacy crate (`pixie_crate.cpp`) -/

structure PciDevice where
  bus : Nat
  slot : Nat
deriving DecidableEq, Repr

/-- A module as `crate::initialize` observes it: the PCI device
information, `none` while only default-constructed (the source compares
indeterminate bus/slot fields of such a module; modelled as matching
nothing, which cannot manufacture a duplicate match). -/
structure LegacyModule where
  device : Option PciDevice
deriving DecidableEq, Repr

/-- The duplicate-scan predicate of `crate::initialize`
(pixie_crate.cpp:81-88): same PCI bus and same PCI slot as the module
just added. -/
def pci_match (m : LegacyModule) (d : PciDevice) : Bool :=
  match m.device with
  | some d' => d'.bus = d.bus && d'.slot = d.slot
  | none => false

/-- `crate::crate(num_modules_)` (pixie_crate.cpp:54-59): throws for any
nonzero module count. -/
def crate_ctor (num_modules : Nat) : Except String Unit :=
  if num_modules ≠ 0 then .error "crate already initialised" else .ok ()

/-- The device loop of `crate::initialize` (pixie_crate.cpp:66-105),
counting the remaining iterations: each iteration pushes a
default-constructed module, asks `pci_find_module` (the oracle `find`,
indexed by device number) to fill its device, breaks on failure, and
otherwise scans all modules — including the one just filled — with
`std::find_if`; a match throws the duplicate error.  After the loop (or
break) a size mismatch throws the not-found error. -/
def initialize_loop (find : Nat → Option PciDevice) (num_modules : Nat) :
    Nat → List LegacyModule → Except String (List LegacyModule)
  | 0, mods =>
    if mods.length ≠ num_modules then .error "Pixie16 module(s) not found"
    else .ok mods
  | steps + 1, mods =>
    match find (num_modules - (steps + 1)) with
    | none =>
      let mods' := mods ++ [{ device := none }]
      if mods'.length ≠ num_modules then .error "Pixie16 module(s) not found"
      else .ok mods'
    | some d =>
      let mods'' := mods ++ [{ device := some d }]
      if mods''.any (fun m => pci_match m d) then
        .error "duplicate Pixie16 module found"
      else initialize_loop find num_modules steps mods''

/-- `crate::initialize()`. -/
def initialize_crate (num_modules : Nat) (find : Nat → Option PciDevice) :
    Except String (List LegacyModule) :=
  initialize_loop find num_modules num_modules []

/-- Constructing a legacy crate and then calling `initialize` on it: the
only way the program obtains an initialized crate. -/
def crate_make_init (num_modules : Nat)
    (find : Nat → Option PciDevice) : Except String (List LegacyModule) := do
  crate_ctor num_modules
  initialize_crate num_modules find

/-! ## Concrete instances used by the scenario claims -/

/-- S4: first pushed buffer, 100 words (sentinels 0..99). -/
def s4_buf1 : Buffer := { cap := 100, data := List.range 100 }

/-- S4: second pushed buffer, 50 words (sentinels 100..149). -/
def s4_buf2 : Buffer := { cap := 50, data := (List.range 50).map (· + 100) }

/-- S4: third pushed buffer, 30 words (sentinels 150..179). -/
def s4_buf3 : Buffer := { cap := 30, data := (List.range 30).map (· + 150) }

/-- S4: the queue after pushing the 100-, 50- and 30-word buffers. -/
def s4_queue : Queue := ((Queue.init.push s4_buf1).push s4_buf2).push s4_buf3

/-- A queue holding one five-word buffer, for exercising `flush`. -/
def five_word_queue : Queue :=
  Queue.init.push { cap := 5, data := [10, 20, 30, 40, 50] }

/-- Run statistics with one hardware FIFO overflow and an otherwise
clean run. -/
def overflow_stats : RunStats :=
  { hw_overflows := 1, overflows := 0, fifo_in := 5, fifo_out := 5 }

/-!
Theorems.

One claim, one theorem; helper lemmas are shared and never named after a
claim.
-/

/-- Claim C1 (code-bug evaluation): pushing buffers of 100, 50 and 30
words and draining 130 does not behave as specified.  The code copies
only 107 whole words (the partial-branch `memcpy` counts bytes, so of
the second buffer only `30 / 4 = 7` words plus 2 stray bytes arrive),
erases the partially-drained buffer outright — losing its 20 leftover
words — and skips the partial `size_` decrement: the queue ends with the
30-word third buffer only, yet `size() = 80` and `count() = 2`, where
the claim demands 130 words copied and 50 words remaining.  The
over-count guard itself does fail `buffer_pool_not_enough` and leave the
queue unchanged. -/
theorem C1_queue_copy_drain_eval :
    s4_queue.size = 180 ∧ s4_queue.data_words = 180 ∧ s4_queue.count = 3 ∧
    s4_queue.copy 130 =
      .ok ({ words := List.range 107, stray_bytes := 2 },
           { buffers := [s4_buf3], size_ := 80, count_ := 2 }) ∧
    s4_queue.copy 181 = .error .buffer_pool_not_enough := by
  decide

/-- Claim C2 (code-bug evaluation): the counter invariant does not
survive `flush`.  After pushing one five-word buffer and flushing, the
queue holds no handles (sum of handle sizes 0, handle count 0) yet
`size()` still reports 5 and `count()` still reports 1, because
`queue::flush` clears the deque without resetting either counter. -/
theorem C2_queue_counters_eval :
    five_word_queue.size = 5 ∧ five_word_queue.count = 1 ∧
    five_word_queue.data_words = 5 ∧
    five_word_queue.flush.buffers = [] ∧
    five_word_queue.flush.data_words = 0 ∧
    five_word_queue.flush.size = 5 ∧
    five_word_queue.flush.count = 1 := by
  decide

/-- Claim C9 (code-bug evaluation): the result-code table does not cover
the enumeration.  The `code` enumeration counts 61 values before `last`
(including `module_test_invalid` and `bad_allocation`) but the table has
only 59 entries, so `check_code_match()` is false and
`api_result(module_test_invalid)` falls through to `bad_error_code`
(990) instead of a 200-group code; entries that are present keep their
documented codes and texts. -/
theorem C9_result_code_table_eval :
    check_code_match = false ∧
    result_codes.length = 59 ∧ size_t_last = 61 ∧
    api_result .module_test_invalid = 990 ∧
    api_result_text .module_test_invalid = "bad error code" ∧
    api_result .bad_allocation = 990 ∧
    api_result .module_number_invalid = 200 ∧
    api_result_text .module_number_invalid = "invalid module number" ∧
    api_result .module_not_found = 216 ∧
    api_result .module_invalid_operation = 206 ∧
    api_result .bad_error_code = 990 := by
  decide

/-- Claim C8 (counterexample): a run-task worker whose final statistics
show a hardware overflow fails with a `std::runtime_error`, which the
supervising `module_threads` captures as a bare exception — not as a
pixie error of type `module_invalid_operation` as the claim states. -/
theorem C8_worker_error_type_counterexample :
    list_save_worker_finish true [] overflow_stats 0 =
      .error (.runtimeError "list mode: EXT FIFO overflow (check workflow config)") ∧
    module_threads_capture (list_save_worker_finish true [] overflow_stats 0) =
      .exception "list mode: EXT FIFO overflow (check workflow config)" ∧
    module_threads_capture (list_save_worker_finish true [] overflow_stats 0) ≠
      .code .module_invalid_operation := by
  decide

/-- Claim C8 (amended): on exit after the deadline a run-task worker
drains the residual words (advancing its total) and checks the run
statistics; a clean run returns normally, and any of `hw_overflows ≠ 0`,
`overflows ≠ 0` or `fifo.in ≠ fifo.out` makes the worker fail with a
fatal `std::runtime_error`, captured by the supervisor as an exception;
a non-run-task worker performs no final check. -/
theorem C8_worker_final_checks (run_task : Bool) (residual : List Nat)
    (stats : RunStats) (total : Nat) :
    (run_task = true → stats.hw_overflows = 0 → stats.overflows = 0 →
      stats.fifo_in = stats.fifo_out →
      list_save_worker_finish run_task residual stats total =
        .ok (total + residual.length)) ∧
    (run_task = true →
      stats.hw_overflows ≠ 0 ∨ stats.overflows ≠ 0 ∨ stats.fifo_in ≠ stats.fifo_out →
      ∃ msg,
        list_save_worker_finish run_task residual stats total =
          .error (.runtimeError msg) ∧
        module_threads_capture (list_save_worker_finish run_task residual stats total) =
          .exception msg) ∧
    (run_task = false →
      list_save_worker_finish run_task residual stats total = .ok total) := by
  refine ⟨?_, ?_, ?_⟩
  · intro hrt h1 h2 h3
    subst hrt
    simp [list_save_worker_finish, h1, h2, h3]
  · intro hrt hbad
    subst hrt
    by_cases h1 : stats.hw_overflows = 0
    · by_cases h2 : stats.overflows = 0
      · have h3 : stats.fifo_in ≠ stats.fifo_out := by tauto
        exact ⟨"list mode: data left in data FIFO",
          by simp [list_save_worker_finish, h1, h2, h3],
          by simp [list_save_worker_finish, h1, h2, h3, module_threads_capture]⟩
      · exact ⟨"list mode: data FIFO overflow (check buffer sizes)",
          by simp [list_save_worker_finish, h1, h2],
          by simp [list_save_worker_finish, h1, h2, module_threads_capture]⟩
    · exact ⟨"list mode: EXT FIFO overflow (check workflow config)",
        by simp [list_save_worker_finish, h1],
        by simp [list_save_worker_finish, h1, module_threads_capture]⟩
  · intro hrt
    subst hrt
    simp [list_save_worker_finish]

/-- Witness for the amended C8 theorem at a concrete clean run: one
residual word advances the total from 10 to 11 and the worker exits
normally. -/
theorem C8_worker_final_checks_witness :
    list_save_worker_finish true [7]
      { hw_overflows := 0, overflows := 0, fifo_in := 3, fifo_out := 3 } 10 =
      .ok 11 :=
  (C8_worker_final_checks true [7]
    { hw_overflows := 0, overflows := 0, fifo_in := 3, fifo_out := 3 } 10).1
    rfl rfl rfl rfl

/-- Claim C3: for every role, `request(m)` succeeds exactly when the
leader was the sentinel `released = -1`, and on success installs
`m.number`; a failed request leaves the role unchanged; after a
successful request by `m` (module numbers are non-negative), a request
by any `m' ≠ m` fails and leaves the leader at `m`; `release(m)`
succeeds exactly when the leader is `m.number` and returns the role to
`released`. -/
theorem C3_role_request_release (r : Role) (m m' : Int)
    (hm : 0 ≤ m) (hne : m' ≠ m) :
    ((r.request m).1 = true ↔ r.leader = released) ∧
    ((r.request m).1 = true → (r.request m).2.leader = m) ∧
    ((r.request m).1 = false → (r.request m).2 = r) ∧
    ((r.request m).1 = true →
      ((r.request m).2.request m').1 = false ∧
      ((r.request m).2.request m').2.leader = m) ∧
    (∀ s : Role, (s.release m).1 = true ↔ s.leader = m) ∧
    ((r.request m).1 = true →
      ((r.request m).2.release m).1 = true ∧
      ((r.request m).2.release m).2.leader = released) := by
  have hm' : m ≠ released := by simp only [released]; omega
  by_cases h : r.leader = released
  · refine ⟨by simp [Role.request, h], by simp [Role.request, h],
      by simp [Role.request, h], ?_, ?_, ?_⟩
    · intro _
      simp [Role.request, h, hm']
    · intro s
      by_cases hs : s.leader = m <;> simp [Role.release, hs]
    · intro _
      simp [Role.request, Role.release, h]
  · refine ⟨by simp [Role.request, h], by simp [Role.request, h],
      by simp [Role.request, h], by simp [Role.request, h], ?_,
      by simp [Role.request, h]⟩
    intro s
    by_cases hs : s.leader = m <;> simp [Role.release, hs]

/-- Witness for C3 at module numbers 0 and 1 starting from a released
role: module 0's request succeeds and module 1's follow-up request
fails, leaving module 0 the leader. -/
theorem C3_role_request_release_witness :
    ((Role.init.request 0).2.request 1).1 = false ∧
    ((Role.init.request 0).2.request 1).2.leader = 0 :=
  (C3_role_request_release Role.init 0 1 (by decide) (by decide)).2.2.2.1
    (by decide)

/-- Claim C4: `sync_wait_valid()` returns normally exactly when the
sync-wait count is 0 or equals the size of the waiter set (the source
checks `sync_waiters.size()`, the maximum slot count of a crate); in
every other state it throws `module_invalid_operation` whose message
contains "sync wait".  Concretely, on a 14-slot backplane where module 0
set `SYNCH_WAIT = 1` and module 1 did not, `sync_wait_valid()` fails
with `module_invalid_operation`. -/
theorem C4_sync_wait_valid_spec (bp : Backplane) :
    (bp.sync_wait_valid = .ok () ↔
      bp.sync_waits = 0 ∨ bp.sync_waits = (bp.sync_waiters.length : Int)) ∧
    (bp.sync_wait_valid = .ok () ∨
      bp.sync_wait_valid = .error (.module_invalid_operation, sync_wait_msg)) ∧
    (∃ pre post, sync_wait_msg = pre ++ "sync wait" ++ post) ∧
    ((Backplane.init 14).sync_wait 0 1 = .ok s6_backplane ∧
      s6_backplane.sync_wait_valid =
        .error (.module_invalid_operation, sync_wait_msg)) := by
  refine ⟨?_, ?_, ?_, by decide, by decide⟩
  · unfold Backplane.sync_wait_valid
    split <;> rename_i hcond
    · constructor
      · intro hh
        exact absurd hh (by simp)
      · intro hh
        tauto
    · constructor
      · intro _
        by_cases h0 : bp.sync_waits = 0
        · exact Or.inl h0
        · exact Or.inr (by tauto)
      · intro _
        rfl
  · unfold Backplane.sync_wait_valid
    split
    · right
      simp [sync_wait_msg]
    · left
      rfl
  · exact ⟨"", " mode enabled and not all modules in the sync wait state",
      by decide⟩

/-- Setting a flag that is already at its value leaves the list
unchanged. -/
theorem list_set_getD_self (l : List Bool) :
    ∀ i, i < l.length → l.set i (l.getD i false) = l := by
  induction l with
  | nil =>
    intro i h
    simp at h
  | cons a t ih =>
    intro i h
    cases i with
    | zero => simp
    | succ j =>
      simp only [List.getD_cons_succ, List.set_cons_succ, List.cons.injEq,
        true_and]
      exact ih j (by simpa using h)

/-- Setting a false flag to true raises the true-count by one. -/
theorem count_true_set_true (l : List Bool) :
    ∀ i, i < l.length → l.getD i false = false →
      (l.set i true).count true = l.count true + 1 := by
  induction l with
  | nil =>
    intro i h
    simp at h
  | cons a t ih =>
    intro i h hf
    cases i with
    | zero =>
      simp only [List.getD_cons_zero] at hf
      subst hf
      simp [List.count_cons]
    | succ j =>
      simp only [List.getD_cons_succ] at hf
      have hrec := ih j (by simpa using h) hf
      simp [List.count_cons, hrec]
      omega

/-- Clearing a true flag lowers the true-count by one. -/
theorem count_true_set_false (l : List Bool) :
    ∀ i, i < l.length → l.getD i false = true →
      (l.set i false).count true + 1 = l.count true := by
  induction l with
  | nil =>
    intro i h
    simp at h
  | cons a t ih =>
    intro i h hf
    cases i with
    | zero =>
      simp only [List.getD_cons_zero] at hf
      subst hf
      simp [List.count_cons]
    | succ j =>
      simp only [List.getD_cons_succ] at hf
      have hrec := ih j (by simpa using h) hf
      simp [List.count_cons]
      omega

/-- One `sync_wait` call from an invariant-satisfying state succeeds,
preserves the invariant, and steps the counter and flag exactly as the
flag toggles. -/
theorem sync_wait_step (bp : Backplane) (modNum v : Nat)
    (hmod : modNum < bp.sync_waiters.length) (hinv : bp.inv) :
    ∃ bp', bp.sync_wait modNum v = .ok bp' ∧ bp'.inv ∧
      bp'.sync_waiters.length = bp.sync_waiters.length ∧
      ((v == 1 : Bool) = bp.sync_waiters.getD modNum false → bp' = bp) ∧
      ((v == 1 : Bool) ≠ bp.sync_waiters.getD modNum false →
        bp'.sync_waiters = bp.sync_waiters.set modNum (v == 1) ∧
        ((v == 1 : Bool) = true → bp'.sync_waits = bp.sync_waits + 1) ∧
        ((v == 1 : Bool) = false → bp'.sync_waits = bp.sync_waits - 1)) := by
  have hcle : List.count true bp.sync_waiters ≤ bp.sync_waiters.length :=
    List.count_le_length true bp.sync_waiters
  by_cases hflag : (v == 1 : Bool) = bp.sync_waiters.getD modNum false
  · exact ⟨bp, by simp [Backplane.sync_wait, hflag], hinv, rfl,
      fun _ => rfl, fun hne => absurd hflag hne⟩
  · rw [Backplane.inv] at hinv
    cases hv1 : (v == 1 : Bool) with
    | true =>
      rw [hv1] at hflag
      have hgetd : bp.sync_waiters.getD modNum false = false := by
        cases h : bp.sync_waiters.getD modNum false
        · rfl
        · exact absurd h.symm hflag
      have hcnt := count_true_set_true bp.sync_waiters modNum hmod hgetd
      have hcle' : List.count true (bp.sync_waiters.set modNum true) ≤
          (bp.sync_waiters.set modNum true).length :=
        List.count_le_length true _
      rw [List.length_set] at hcle'
      have hno : ¬(bp.sync_waits + 1 < 0 ∨ bp.sync_waits + 1 >
          ((bp.sync_waiters.set modNum true).length : Int)) := by
        rw [List.length_set]
        push_neg
        omega
      have hok : bp.sync_wait modNum v =
          .ok { sync_waits := bp.sync_waits + 1,
                sync_waiters := bp.sync_waiters.set modNum true } := by
        simp only [Backplane.sync_wait]
        rw [hv1, hgetd]
        rw [if_neg (by decide : ¬(true = false)), if_pos rfl, if_neg hno]
      refine ⟨_, hok, ?_, by simp [List.length_set], ?_, ?_⟩
      · rw [Backplane.inv]
        show bp.sync_waits + 1 = _
        rw [hcnt]
        push_cast
        omega
      · intro h
        exact absurd h hflag
      · intro _
        exact ⟨rfl, fun _ => rfl, fun h => absurd h (by decide)⟩
    | false =>
      rw [hv1] at hflag
      have hgetd : bp.sync_waiters.getD modNum false = true := by
        cases h : bp.sync_waiters.getD modNum false
        · exact absurd h.symm hflag
        · rfl
      have hcnt := count_true_set_false bp.sync_waiters modNum hmod hgetd
      have hno : ¬(bp.sync_waits - 1 < 0 ∨ bp.sync_waits - 1 >
          ((bp.sync_waiters.set modNum false).length : Int)) := by
        rw [List.length_set]
        push_neg
        omega
      have hok : bp.sync_wait modNum v =
          .ok { sync_waits := bp.sync_waits - 1,
                sync_waiters := bp.sync_waiters.set modNum false } := by
        simp only [Backplane.sync_wait]
        rw [hv1, hgetd]
        rw [if_neg (by decide : ¬(false = true)),
          if_neg (by decide : ¬(false = true)), if_neg hno]
      refine ⟨_, hok, ?_, by simp [List.length_set], ?_, ?_⟩
      · rw [Backplane.inv]
        show bp.sync_waits - 1 = _
        push_cast
        omega
      · intro h
        exact absurd h hflag
      · intro _
        exact ⟨rfl, fun h => absurd h (by decide), fun _ => rfl⟩

/-- A `sync_wait` call can only throw `internal_failure`. -/
theorem sync_wait_error_code (bp : Backplane) (m w : Nat) (c : Code)
    (h : bp.sync_wait m w = .error c) : c = .internal_failure := by
  revert h
  by_cases hf : (w == 1 : Bool) = bp.sync_waiters.getD m false
  · simp [Backplane.sync_wait, hf]
  · simp only [Backplane.sync_wait]
    rw [if_neg hf]
    generalize (if (w == 1 : Bool) then bp.sync_waits + 1
      else bp.sync_waits - 1) = waits'
    split
    · intro h
      exact (Except.error.inj h).symm
    · intro h
      exact Except.noConfusion h

/-- A whole sequence of in-bounds `sync_wait` calls from an
invariant-satisfying state succeeds and preserves the invariant. -/
theorem sync_wait_seq_inv : ∀ (calls : List (Nat × Nat)) (bp : Backplane),
    bp.inv → (∀ p ∈ calls, p.1 < bp.sync_waiters.length) →
    ∃ bp', bp.sync_wait_seq calls = .ok bp' ∧ bp'.inv ∧
      bp'.sync_waiters.length = bp.sync_waiters.length := by
  intro calls
  induction calls with
  | nil =>
    intro bp hinv _
    exact ⟨bp, rfl, hinv, rfl⟩
  | cons p rest ih =>
    intro bp hinv hall
    obtain ⟨m, w⟩ := p
    obtain ⟨bp', hok, hinv', hlen', -, -⟩ :=
      sync_wait_step bp m w (hall (m, w) (by simp)) hinv
    obtain ⟨bp'', hok'', hinv'', hlen''⟩ :=
      ih bp' hinv' (fun q hq => by rw [hlen']; exact hall q (by simp [hq]))
    refine ⟨bp'', ?_, hinv'', hlen''.trans hlen'⟩
    simp only [Backplane.sync_wait_seq, hok]
    exact hok''

/-- Claim C5: from any state satisfying the sync-wait invariant
(`sync_waits` equals the number of waiting modules, hence lies in
`[0, |sync_waiters|]`), an in-bounds `sync_wait(mod, v)` call with
`v ∈ {0, 1}` succeeds and preserves the invariant: `v = 1` on a
non-waiting module increments the counter and sets the flag, `v = 0` on
a waiting module decrements and clears it, and a call that does not
change the flag changes nothing; a `sync_wait` call that throws can only
throw `internal_failure`; and every in-bounds call sequence preserves
the invariant. -/
theorem C5_sync_wait_invariant (bp : Backplane) (modNum v : Nat)
    (hmod : modNum < bp.sync_waiters.length) (hv : v = 0 ∨ v = 1)
    (hinv : bp.inv) :
    (∃ bp', bp.sync_wait modNum v = .ok bp' ∧ bp'.inv ∧
      0 ≤ bp'.sync_waits ∧ bp'.sync_waits ≤ (bp'.sync_waiters.length : Int) ∧
      (v = 1 → bp.sync_waiters.getD modNum false = false →
        bp'.sync_waits = bp.sync_waits + 1 ∧
        bp'.sync_waiters = bp.sync_waiters.set modNum true) ∧
      (v = 0 → bp.sync_waiters.getD modNum false = true →
        bp'.sync_waits = bp.sync_waits - 1 ∧
        bp'.sync_waiters = bp.sync_waiters.set modNum false) ∧
      ((v = 1 ↔ bp.sync_waiters.getD modNum false = true) → bp' = bp)) ∧
    (∀ (bp2 : Backplane) (m w : Nat) (c : Code),
      bp2.sync_wait m w = .error c → c = .internal_failure) ∧
    (∀ calls : List (Nat × Nat),
      (∀ p ∈ calls, p.1 < bp.sync_waiters.length) →
      ∃ bp', bp.sync_wait_seq calls = .ok bp' ∧ bp'.inv ∧
        bp'.sync_waiters.length = bp.sync_waiters.length) := by
  refine ⟨?_, fun bp2 m w c h => sync_wait_error_code bp2 m w c h,
    fun calls hcalls => sync_wait_seq_inv calls bp hinv hcalls⟩
  obtain ⟨bp', hok, hinv', hlen', hsame, htoggle⟩ :=
    sync_wait_step bp modNum v hmod hinv
  have hcle' : bp'.sync_waits ≤ (bp'.sync_waiters.length : Int) := by
    rw [Backplane.inv] at hinv'
    have := List.count_le_length true bp'.sync_waiters
    omega
  have hge : 0 ≤ bp'.sync_waits := by
    rw [Backplane.inv] at hinv'
    omega
  refine ⟨bp', hok, hinv', hge, hcle', ?_, ?_, ?_⟩
  · intro hv1 hgetd
    subst hv1
    obtain ⟨hset, hplus, -⟩ := htoggle (by rw [hgetd]; decide)
    exact ⟨hplus rfl, by simpa using hset⟩
  · intro hv0 hgetd
    subst hv0
    obtain ⟨hset, -, hminus⟩ := htoggle (by rw [hgetd]; decide)
    exact ⟨hminus rfl, by simpa using hset⟩
  · intro hiff
    apply hsame
    rcases hv with hv0 | hv1
    · subst hv0
      have hgf : bp.sync_waiters.getD modNum false = false := by
        cases h : bp.sync_waiters.getD modNum false
        · rfl
        · exact absurd (hiff.mpr h) (by decide)
      rw [hgf]
      decide
    · subst hv1
      rw [hiff.mp rfl]
      decide

/-- Witness for C5: on a fresh two-slot backplane, module 0 writing
`SYNCH_WAIT = 1` succeeds and preserves the invariant. -/
theorem C5_sync_wait_invariant_witness :
    (Backplane.init 2).inv ∧ 0 < (Backplane.init 2).sync_waiters.length ∧
    ∃ bp', (Backplane.init 2).sync_wait 0 1 = .ok bp' ∧ bp'.inv := by
  have h0 : (Backplane.init 2).inv := by
    unfold Backplane.inv
    decide
  refine ⟨h0, by decide, ?_⟩
  obtain ⟨bp', hok, hinv', -⟩ :=
    (C5_sync_wait_invariant (Backplane.init 2) 0 1 (by decide) (Or.inr rfl)
      h0).1
  exact ⟨bp', hok, hinv'⟩

/-- `k` requests from a consistent pool succeed, taking the first `k`
free buffers and decrementing the counter by `k`. -/
theorem pool_requests_ok : ∀ (k : Nat) (p : Pool),
    p.count_ = p.buffers.length → k ≤ p.count_ →
    p.requests k = .ok (p.buffers.take k,
      { p with buffers := p.buffers.drop k, count_ := p.count_ - k }) := by
  intro k
  induction k with
  | zero =>
    intro p hpc hk
    simp [Pool.requests]
  | succ k ih =>
    rintro ⟨num, sz, bufs, cnt⟩ hpc hk
    simp only [] at hpc hk
    cases bufs with
    | nil =>
      simp at hpc
      omega
    | cons b rest =>
      simp at hpc hk
      have hc0 : ¬(cnt = 0) := by omega
      have hreq : Pool.request ⟨num, sz, b :: rest, cnt⟩ =
          .ok (b, ⟨num, sz, rest, cnt - 1⟩) := by
        simp [Pool.request, Pool.isEmpty, hc0]
      have hih := ih ⟨num, sz, rest, cnt - 1⟩
        (by simp; omega) (by simp; omega)
      simp only [Pool.requests, hreq, hih]
      have hcnt : cnt - 1 - k = cnt - (k + 1) := by omega
      simp [hcnt]

/-- Claim C6: a pool created with `N` buffers serves exactly `N`
requests, each lowering the available count by one; with the pool
exhausted the next request throws `buffer_pool_empty`; releasing a
handle puts the buffer — contents cleared — back on the free list so
the next request succeeds and returns it. -/
theorem C6_pool_exhaustion (N C : Nat) :
    ∃ p0, Pool.init.create N C = .ok p0 ∧
      p0.count_ = N ∧ p0.buffers.length = N ∧
      (∀ k, k ≤ N → ∃ hs pk, p0.requests k = .ok (hs, pk) ∧
        hs.length = k ∧ pk.count_ = N - k) ∧
      ∃ hsN pN, p0.requests N = .ok (hsN, pN) ∧ hsN.length = N ∧
        pN.count_ = 0 ∧
        pN.request = .error .buffer_pool_empty ∧
        ∀ b : Buffer, (pN.release b).request =
          .ok (b.clear, { pN with buffers := [], count_ := 0 }) := by
  refine ⟨{ number := N, size := C,
            buffers := List.replicate N { cap := C, data := [] },
            count_ := N }, ?_, rfl, by simp, ?_, ?_⟩
  · simp [Pool.create, Pool.init]
  · intro k hk
    have h := pool_requests_ok k
      { number := N, size := C,
        buffers := List.replicate N { cap := C, data := [] }, count_ := N }
      (by simp) (by simpa using hk)
    refine ⟨_, _, h, ?_, rfl⟩
    simp [List.length_take]
    omega
  · have h := pool_requests_ok N
      { number := N, size := C,
        buffers := List.replicate N { cap := C, data := [] }, count_ := N }
      (by simp) (by simp)
    refine ⟨_, _, h, by simp [List.length_take], by simp, ?_, ?_⟩
    · simp [Pool.request, Pool.isEmpty]
    · intro b
      simp [Pool.release, Pool.request, Pool.isEmpty]

/-- Witness for C6 at `N = 3`, `C = 1024`: three requests drain the
pool and the fourth request fails `buffer_pool_empty`. -/
theorem C6_pool_exhaustion_witness :
    ∃ p0, Pool.init.create 3 1024 = .ok p0 ∧
      ∃ hs pN, p0.requests 3 = .ok (hs, pN) ∧
        pN.request = .error .buffer_pool_empty := by
  obtain ⟨p0, hcreate, -, -, -, hsN, pN, hreq, -, -, hfail, -⟩ :=
    C6_pool_exhaustion 3 1024
  exact ⟨p0, hcreate, hsN, pN, hreq, hfail⟩

/-- Claim C10: the legacy crate constructor throws for every nonzero
module count; inside `initialize`, whenever `pci_find_module` fills a
module's device the duplicate scan runs over a range containing that
very module, matches it against itself and throws the duplicate error;
consequently constructing and initializing a crate returns normally
exactly when `num_modules = 0`, with no module found. -/
theorem C10_legacy_crate_init (n : Nat)
    (find : Nat → Option PciDevice) :
    (crate_ctor n = .ok () ↔ n = 0) ∧
    (∀ (steps : Nat) (mods : List LegacyModule) (d : PciDevice),
      find (n - (steps + 1)) = some d →
      initialize_loop find n (steps + 1) mods =
        .error "duplicate Pixie16 module found") ∧
    (∀ l, crate_make_init n find = .ok l ↔ (n = 0 ∧ l = [])) := by
  refine ⟨?_, ?_, ?_⟩
  · unfold crate_ctor
    split <;> rename_i h
    · constructor
      · intro hh
        exact absurd hh (by simp)
      · intro h0
        exact absurd h0 h
    · constructor
      · intro _
        omega
      · intro _
        rfl
  · intro steps mods d hfind
    have hself : pci_match { device := some d } d = true := by
      simp [pci_match]
    have hany : ((mods ++ [({ device := some d } : LegacyModule)]).any
        (fun m => pci_match m d)) = true := by
      rw [List.any_append]
      simp [hself]
    simp only [initialize_loop, hfind]
    rw [if_pos hany]
  · intro l
    by_cases hn : n = 0
    · subst hn
      have h00 : crate_make_init 0 find = .ok [] := rfl
      rw [h00]
      constructor
      · intro hh
        exact ⟨rfl, (Except.ok.inj hh).symm⟩
      · rintro ⟨-, rfl⟩
        rfl
    · have hc : crate_ctor n = .error "crate already initialised" := by
        simp [crate_ctor, hn]
      constructor
      · intro hh
        rw [crate_make_init] at hh
        rw [hc] at hh
        exact Except.noConfusion hh
      · intro ⟨h0, _⟩
        exact absurd h0 hn

/-- Witness for C10: with one expected module and a PCI scan that finds
a device for it, `initialize` throws the duplicate-module error (the
scan matches the module against itself). -/
theorem C10_legacy_crate_init_witness :
    initialize_loop (fun _ => some { bus := 7, slot := 3 }) 1 1 [] =
      .error "duplicate Pixie16 module found" :=
  (C10_legacy_crate_init 1 (fun _ => some { bus := 7, slot := 3 })).2.1
    0 [] { bus := 7, slot := 3 } rfl

/-- The inner merge conserves buffers: the remaining successors plus the
erased ones account for every input buffer. -/
theorem inner_merge_len : ∀ (l : List Buffer) (tm : Nat) (tob : Buffer),
    (inner_merge tm tob l).2.1.length + (inner_merge tm tob l).2.2 =
      l.length := by
  intro l
  induction l with
  | nil =>
    intro tm tob
    simp [inner_merge]
  | cons from_ rest ih =>
    intro tm tob
    by_cases h0 : tm = 0
    · simp [inner_merge, h0]
    · by_cases hle : from_.size ≤ tm
      · rcases hr : inner_merge (tm - from_.size)
          { tob with data := tob.data ++ from_.data } rest with ⟨to', rest', k⟩
        have hlen := ih (tm - from_.size)
          { tob with data := tob.data ++ from_.data }
        rw [hr] at hlen
        simp [inner_merge, h0, hle, hr]
        simp at hlen
        omega
      · simp [inner_merge, h0, hle]

/-- A merge that erased nothing while there was room and a successor
fills the target buffer to capacity. -/
theorem inner_merge_partial_spare (tob from_ : Buffer) (rest : List Buffer)
    (h0 : tob.spare ≠ 0) (hlt : tob.spare < from_.size) :
    (inner_merge tob.spare tob (from_ :: rest)).1.spare = 0 := by
  have hnle : ¬(from_.size ≤ tob.spare) := by omega
  simp only [inner_merge, if_neg h0, if_neg hnle]
  simp only [Buffer.spare, Buffer.size] at hlt h0 ⊢
  simp only [List.length_append, List.length_take]
  omega

/-- One pass conserves buffers: remaining plus erased equals the
input. -/
theorem outer_loop_len : ∀ (fuel : Nat) (l : List Buffer),
    (outer_loop fuel l).1.length + (outer_loop fuel l).2.1 = l.length := by
  intro fuel
  induction fuel with
  | zero =>
    intro l
    cases l <;> simp [outer_loop]
  | succ fuel ih =>
    intro l
    cases l with
    | nil => simp [outer_loop]
    | cons tob rest =>
      by_cases hsp : tob.spare > 0
      · rcases hr : inner_merge tob.spare tob rest with ⟨to', rest', k⟩
        have hlen := inner_merge_len rest tob.spare tob
        rw [hr] at hlen
        simp at hlen
        by_cases hk : k > 0
        · simp [outer_loop, hsp, hr, hk]
          omega
        · have hs := ih rest'
          simp [outer_loop, hsp, hr, hk]
          omega
      · have hs := ih rest
        simp [outer_loop, hsp]
        omega

/-- A pass that sets `rerun` erased at least one buffer. -/
theorem outer_loop_rerun_pos : ∀ (fuel : Nat) (l : List Buffer),
    (outer_loop fuel l).2.2 = true → (outer_loop fuel l).2.1 > 0 := by
  intro fuel
  induction fuel with
  | zero =>
    intro l h
    cases l <;> simp [outer_loop] at h
  | succ fuel ih =>
    intro l h
    cases l with
    | nil => simp [outer_loop] at h
    | cons tob rest =>
      by_cases hsp : tob.spare > 0
      · rcases hr : inner_merge tob.spare tob rest with ⟨to', rest', k⟩
        by_cases hk : k > 0
        · simp [outer_loop, hsp, hr, hk]
        · simp [outer_loop, hsp, hr, hk] at h ⊢
          exact ih rest' h
      · simp [outer_loop, hsp] at h ⊢
        exact ih rest h

/-- A pass that does not set `rerun` leaves every buffer but the last
full to capacity. -/
theorem outer_loop_false_fel : ∀ (fuel : Nat) (l : List Buffer),
    l.length ≤ fuel → (outer_loop fuel l).2.2 = false →
    full_except_last (outer_loop fuel l).1 := by
  intro fuel
  induction fuel with
  | zero =>
    intro l hlen _
    have : l = [] := by
      cases l
      · rfl
      · simp at hlen
    subst this
    simp [outer_loop, full_except_last]
  | succ fuel ih =>
    intro l hlen hrr
    cases l with
    | nil => simp [outer_loop, full_except_last]
    | cons tob rest =>
      by_cases hsp : tob.spare > 0
      · rcases hr : inner_merge tob.spare tob rest with ⟨to', rest', k⟩
        by_cases hk : k > 0
        · simp [outer_loop, hsp, hr, hk] at hrr
        · have hlen' : rest'.length = rest.length := by
            have := inner_merge_len rest tob.spare tob
            rw [hr] at this
            simp at this
            omega
          simp [outer_loop, hsp, hr, hk] at hrr ⊢
          have hfel := ih rest' (by rw [hlen']; simp at hlen; omega) hrr
          cases hs1 : (outer_loop fuel rest').1 with
          | nil => simp [full_except_last]
          | cons c crest =>
            rw [hs1] at hfel
            have hto' : to'.spare = 0 := by
              cases rest with
              | nil =>
                simp [inner_merge] at hr
                obtain ⟨h1, h2, -⟩ := hr
                subst h1 h2
                simp [outer_loop] at hs1
              | cons from_ rest2 =>
                have h0 : tob.spare ≠ 0 := by omega
                by_cases hle : from_.size ≤ tob.spare
                · exfalso
                  rcases hr2 : inner_merge (tob.spare - from_.size)
                    { tob with data := tob.data ++ from_.data } rest2 with
                    ⟨a, b, c2⟩
                  simp [inner_merge, h0, hle, hr2] at hr
                  omega
                · have := inner_merge_partial_spare tob from_ rest2 h0
                    (by omega)
                  rw [hr] at this
                  exact this
            exact ⟨hto', hfel⟩
      · simp [outer_loop, hsp] at hrr ⊢
        have hfel := ih rest (by simp at hlen; omega) hrr
        cases hs1 : (outer_loop fuel rest).1 with
        | nil => simp [full_except_last]
        | cons c crest =>
          rw [hs1] at hfel
          exact ⟨by omega, hfel⟩

/-- A deque already in the compacted shape is a fixed point of the
pass. -/
theorem fel_outer_loop : ∀ (l : List Buffer) (fuel : Nat),
    l.length ≤ fuel → full_except_last l →
    outer_loop fuel l = (l, 0, false) := by
  intro l
  induction l with
  | nil =>
    intro fuel _ _
    cases fuel <;> simp [outer_loop]
  | cons tob rest ih =>
    intro fuel hlen hfel
    cases fuel with
    | zero => simp at hlen
    | succ fuel =>
      cases rest with
      | nil =>
        by_cases hsp : tob.spare > 0
        · simp [outer_loop, hsp, inner_merge]
        · simp [outer_loop, hsp]
      | cons c rest2 =>
        obtain ⟨hfull, hfel2⟩ := hfel
        have hsp : ¬(tob.spare > 0) := by omega
        have hrec := ih fuel (by simp at hlen ⊢; omega) hfel2
        simp [outer_loop, hsp, hrec]

/-- With fuel exceeding the buffer count, `compact`'s pass loop drives
the deque into the compacted shape. -/
theorem compact_passes_fel : ∀ (fuel : Nat) (l : List Buffer) (c : Nat),
    l.length < fuel → full_except_last (compact_passes fuel l c).1 := by
  intro fuel
  induction fuel with
  | zero =>
    intro l c h
    omega
  | succ fuel ih =>
    intro l c hlen
    cases hrr : (outer_pass l).2.2 with
    | true =>
      have hlt : (outer_pass l).1.length < l.length := by
        have h1 := outer_loop_len l.length l
        have h2 := outer_loop_rerun_pos l.length l hrr
        unfold outer_pass
        omega
      simp only [compact_passes, hrr, if_pos]
      exact ih (outer_pass l).1 (c - (outer_pass l).2.1) (by omega)
    | false =>
      simp only [compact_passes, hrr]
      simp only [Bool.false_eq_true, if_false]
      exact outer_loop_false_fel l.length l (by omega) hrr

/-- A compacted deque is a fixed point of the pass loop. -/
theorem compact_passes_fixpoint (fuel : Nat) (l : List Buffer) (c : Nat)
    (hfuel : 1 ≤ fuel) (hfel : full_except_last l) :
    compact_passes fuel l c = (l, c) := by
  cases fuel with
  | zero => omega
  | succ fuel =>
    have hop : outer_pass l = (l, 0, false) :=
      fel_outer_loop l l.length (le_refl _) hfel
    simp [compact_passes, hop]

/-- Claim C7: `queue::compact` never changes `queue.size()` (the word
counter is not touched), and compact is idempotent: a second compact
immediately after a first leaves the queue's buffers, size and count
unchanged. -/
theorem C7_compact_idempotent (q : Queue) :
    q.compact.size = q.size ∧ q.compact.size_ = q.size_ ∧
    q.compact.compact = q.compact := by
  obtain ⟨bufs, sz, cnt⟩ := q
  refine ⟨rfl, rfl, ?_⟩
  have hfel : full_except_last
      (compact_passes (bufs.length + 1) bufs cnt).1 :=
    compact_passes_fel (bufs.length + 1) bufs cnt (by omega)
  have h1 : Queue.compact ⟨bufs, sz, cnt⟩ =
      ⟨(compact_passes (bufs.length + 1) bufs cnt).1, sz,
       (compact_passes (bufs.length + 1) bufs cnt).2⟩ := rfl
  rw [h1]
  have h2 : Queue.compact
      ⟨(compact_passes (bufs.length + 1) bufs cnt).1, sz,
       (compact_passes (bufs.length + 1) bufs cnt).2⟩ =
      ⟨(compact_passes ((compact_passes (bufs.length + 1) bufs cnt).1.length + 1)
          (compact_passes (bufs.length + 1) bufs cnt).1
          (compact_passes (bufs.length + 1) bufs cnt).2).1, sz,
       (compact_passes ((compact_passes (bufs.length + 1) bufs cnt).1.length + 1)
          (compact_passes (bufs.length + 1) bufs cnt).1
          (compact_passes (bufs.length + 1) bufs cnt).2).2⟩ := rfl
  rw [h2, compact_passes_fixpoint _ _ _ (by omega) hfel]
